import Mathlib

/-!
Verification development for the CGC serial command/response interface
(device families COM-AMPR-12, COM-HVPSU2D, COM-HVAMX4ED).

The repository ships the three vendor DLL headers; the constants below are
translated directly from them.  The protocol-engine behaviour (transactions,
slot manager, error latching) is only declared by the headers, so the
operational definitions further down are modelled from the design
specification and are marked `Modelled from the spec:` in their doc comments.
-/

namespace CGCSerial

/-! ## Error-code constants (COM-AMPR-12.h, lines 41-60) -/

def COM_AMPR_12_NO_ERR : Int := 0
def COM_AMPR_12_ERR_OPEN : Int := -2
def COM_AMPR_12_ERR_CLOSE : Int := -3
def COM_AMPR_12_ERR_PURGE : Int := -4
def COM_AMPR_12_ERR_CONTROL : Int := -5
def COM_AMPR_12_ERR_STATUS : Int := -6
def COM_AMPR_12_ERR_COMMAND_SEND : Int := -7
def COM_AMPR_12_ERR_DATA_SEND : Int := -8
def COM_AMPR_12_ERR_TERM_SEND : Int := -9
def COM_AMPR_12_ERR_COMMAND_RECEIVE : Int := -10
def COM_AMPR_12_ERR_DATA_RECEIVE : Int := -11
def COM_AMPR_12_ERR_TERM_RECEIVE : Int := -12
def COM_AMPR_12_ERR_COMMAND_WRONG : Int := -13
def COM_AMPR_12_ERR_ARGUMENT_WRONG : Int := -14
def COM_AMPR_12_ERR_ARGUMENT : Int := -15
def COM_AMPR_12_ERR_RATE : Int := -16
def COM_AMPR_12_ERR_NOT_CONNECTED : Int := -100
def COM_AMPR_12_ERR_NOT_READY : Int := -101
def COM_AMPR_12_ERR_READY : Int := -102

/-! ## Error-code constants (COM-HVPSU2D.h, lines 43-67) -/

def COM_HVPSU2D_NO_ERR : Int := 0
def COM_HVPSU2D_ERR_PORT_RANGE : Int := -1
def COM_HVPSU2D_ERR_OPEN : Int := -2
def COM_HVPSU2D_ERR_CLOSE : Int := -3
def COM_HVPSU2D_ERR_PURGE : Int := -4
def COM_HVPSU2D_ERR_CONTROL : Int := -5
def COM_HVPSU2D_ERR_STATUS : Int := -6
def COM_HVPSU2D_ERR_COMMAND_SEND : Int := -7
def COM_HVPSU2D_ERR_DATA_SEND : Int := -8
def COM_HVPSU2D_ERR_TERM_SEND : Int := -9
def COM_HVPSU2D_ERR_COMMAND_RECEIVE : Int := -10
def COM_HVPSU2D_ERR_DATA_RECEIVE : Int := -11
def COM_HVPSU2D_ERR_TERM_RECEIVE : Int := -12
def COM_HVPSU2D_ERR_COMMAND_WRONG : Int := -13
def COM_HVPSU2D_ERR_ARGUMENT_WRONG : Int := -14
def COM_HVPSU2D_ERR_ARGUMENT : Int := -15
def COM_HVPSU2D_ERR_RATE : Int := -16
def COM_HVPSU2D_ERR_NOT_CONNECTED : Int := -100
def COM_HVPSU2D_ERR_NOT_READY : Int := -101
def COM_HVPSU2D_ERR_READY : Int := -102
def COM_HVPSU2D_ERR_DEBUG_OPEN : Int := -400
def COM_HVPSU2D_ERR_DEBUG_CLOSE : Int := -401

/-! ## Error-code constants (COM-HVAMX4ED.h, lines 43-67) -/

def COM_HVAMX4ED_NO_ERR : Int := 0
def COM_HVAMX4ED_ERR_PORT_RANGE : Int := -1
def COM_HVAMX4ED_ERR_OPEN : Int := -2
def COM_HVAMX4ED_ERR_CLOSE : Int := -3
def COM_HVAMX4ED_ERR_PURGE : Int := -4
def COM_HVAMX4ED_ERR_CONTROL : Int := -5
def COM_HVAMX4ED_ERR_STATUS : Int := -6
def COM_HVAMX4ED_ERR_COMMAND_SEND : Int := -7
def COM_HVAMX4ED_ERR_DATA_SEND : Int := -8
def COM_HVAMX4ED_ERR_TERM_SEND : Int := -9
def COM_HVAMX4ED_ERR_COMMAND_RECEIVE : Int := -10
def COM_HVAMX4ED_ERR_DATA_RECEIVE : Int := -11
def COM_HVAMX4ED_ERR_TERM_RECEIVE : Int := -12
def COM_HVAMX4ED_ERR_COMMAND_WRONG : Int := -13
def COM_HVAMX4ED_ERR_ARGUMENT_WRONG : Int := -14
def COM_HVAMX4ED_ERR_ARGUMENT : Int := -15
def COM_HVAMX4ED_ERR_RATE : Int := -16
def COM_HVAMX4ED_ERR_NOT_CONNECTED : Int := -100
def COM_HVAMX4ED_ERR_NOT_READY : Int := -101
def COM_HVAMX4ED_ERR_READY : Int := -102
def COM_HVAMX4ED_ERR_DEBUG_OPEN : Int := -400
def COM_HVAMX4ED_ERR_DEBUG_CLOSE : Int := -401

/-- All status codes documented as possible return values by COM-AMPR-12.h
(the `COM_AMPR_12_ERR_XXX` defines plus `COM_AMPR_12_NO_ERR`).  Note the
AMPR-12 header defines no port-range code. -/
def amprStatusCodes : List Int :=
  [COM_AMPR_12_NO_ERR, COM_AMPR_12_ERR_OPEN, COM_AMPR_12_ERR_CLOSE,
   COM_AMPR_12_ERR_PURGE, COM_AMPR_12_ERR_CONTROL, COM_AMPR_12_ERR_STATUS,
   COM_AMPR_12_ERR_COMMAND_SEND, COM_AMPR_12_ERR_DATA_SEND,
   COM_AMPR_12_ERR_TERM_SEND, COM_AMPR_12_ERR_COMMAND_RECEIVE,
   COM_AMPR_12_ERR_DATA_RECEIVE, COM_AMPR_12_ERR_TERM_RECEIVE,
   COM_AMPR_12_ERR_COMMAND_WRONG, COM_AMPR_12_ERR_ARGUMENT_WRONG,
   COM_AMPR_12_ERR_ARGUMENT, COM_AMPR_12_ERR_RATE,
   COM_AMPR_12_ERR_NOT_CONNECTED, COM_AMPR_12_ERR_NOT_READY,
   COM_AMPR_12_ERR_READY]

/-- All status codes documented as possible return values by COM-HVPSU2D.h. -/
def hvpsu2dStatusCodes : List Int :=
  [COM_HVPSU2D_NO_ERR, COM_HVPSU2D_ERR_PORT_RANGE, COM_HVPSU2D_ERR_OPEN,
   COM_HVPSU2D_ERR_CLOSE, COM_HVPSU2D_ERR_PURGE, COM_HVPSU2D_ERR_CONTROL,
   COM_HVPSU2D_ERR_STATUS, COM_HVPSU2D_ERR_COMMAND_SEND,
   COM_HVPSU2D_ERR_DATA_SEND, COM_HVPSU2D_ERR_TERM_SEND,
   COM_HVPSU2D_ERR_COMMAND_RECEIVE, COM_HVPSU2D_ERR_DATA_RECEIVE,
   COM_HVPSU2D_ERR_TERM_RECEIVE, COM_HVPSU2D_ERR_COMMAND_WRONG,
   COM_HVPSU2D_ERR_ARGUMENT_WRONG, COM_HVPSU2D_ERR_ARGUMENT,
   COM_HVPSU2D_ERR_RATE, COM_HVPSU2D_ERR_NOT_CONNECTED,
   COM_HVPSU2D_ERR_NOT_READY, COM_HVPSU2D_ERR_READY,
   COM_HVPSU2D_ERR_DEBUG_OPEN, COM_HVPSU2D_ERR_DEBUG_CLOSE]

/-- All status codes documented as possible return values by COM-HVAMX4ED.h. -/
def hvamx4edStatusCodes : List Int :=
  [COM_HVAMX4ED_NO_ERR, COM_HVAMX4ED_ERR_PORT_RANGE, COM_HVAMX4ED_ERR_OPEN,
   COM_HVAMX4ED_ERR_CLOSE, COM_HVAMX4ED_ERR_PURGE, COM_HVAMX4ED_ERR_CONTROL,
   COM_HVAMX4ED_ERR_STATUS, COM_HVAMX4ED_ERR_COMMAND_SEND,
   COM_HVAMX4ED_ERR_DATA_SEND, COM_HVAMX4ED_ERR_TERM_SEND,
   COM_HVAMX4ED_ERR_COMMAND_RECEIVE, COM_HVAMX4ED_ERR_DATA_RECEIVE,
   COM_HVAMX4ED_ERR_TERM_RECEIVE, COM_HVAMX4ED_ERR_COMMAND_WRONG,
   COM_HVAMX4ED_ERR_ARGUMENT_WRONG, COM_HVAMX4ED_ERR_ARGUMENT,
   COM_HVAMX4ED_ERR_RATE, COM_HVAMX4ED_ERR_NOT_CONNECTED,
   COM_HVAMX4ED_ERR_NOT_READY, COM_HVAMX4ED_ERR_READY,
   COM_HVAMX4ED_ERR_DEBUG_OPEN, COM_HVAMX4ED_ERR_DEBUG_CLOSE]

/-- The sixteen wire-stage error kinds of the spec's taxonomy (section 7):
port-range, open, close, purge, control, status, command-send, data-send,
term-send, command-receive, data-receive, term-receive, command-wrong,
argument-wrong, argument, rate. -/
def wireStageKinds : List Int :=
  [-1, -2, -3, -4, -5, -6, -7, -8, -9, -10, -11, -12, -13, -14, -15, -16]

/-- The three device-availability kinds: not-connected, not-ready,
ready-transition-failed. -/
def availabilityKinds : List Int := [-100, -101, -102]

/-- The set of error kinds the claim allows: the sixteen wire-stage kinds
plus the three availability kinds. -/
def claimedKinds : List Int := wireStageKinds ++ availabilityKinds

/-- Per-family kind-name/code tables (suffix of the `ERR_` define, code),
used to compare the numeric assignment across the three families. -/
def amprErrTable : List (String × Int) :=
  [("OPEN", -2), ("CLOSE", -3), ("PURGE", -4), ("CONTROL", -5),
   ("STATUS", -6), ("COMMAND_SEND", -7), ("DATA_SEND", -8),
   ("TERM_SEND", -9), ("COMMAND_RECEIVE", -10), ("DATA_RECEIVE", -11),
   ("TERM_RECEIVE", -12), ("COMMAND_WRONG", -13), ("ARGUMENT_WRONG", -14),
   ("ARGUMENT", -15), ("RATE", -16), ("NOT_CONNECTED", -100),
   ("NOT_READY", -101), ("READY", -102)]

def hvpsu2dErrTable : List (String × Int) :=
  [("PORT_RANGE", -1), ("OPEN", -2), ("CLOSE", -3), ("PURGE", -4),
   ("CONTROL", -5), ("STATUS", -6), ("COMMAND_SEND", -7), ("DATA_SEND", -8),
   ("TERM_SEND", -9), ("COMMAND_RECEIVE", -10), ("DATA_RECEIVE", -11),
   ("TERM_RECEIVE", -12), ("COMMAND_WRONG", -13), ("ARGUMENT_WRONG", -14),
   ("ARGUMENT", -15), ("RATE", -16), ("NOT_CONNECTED", -100),
   ("NOT_READY", -101), ("READY", -102), ("DEBUG_OPEN", -400),
   ("DEBUG_CLOSE", -401)]

def hvamx4edErrTable : List (String × Int) :=
  [("PORT_RANGE", -1), ("OPEN", -2), ("CLOSE", -3), ("PURGE", -4),
   ("CONTROL", -5), ("STATUS", -6), ("COMMAND_SEND", -7), ("DATA_SEND", -8),
   ("TERM_SEND", -9), ("COMMAND_RECEIVE", -10), ("DATA_RECEIVE", -11),
   ("TERM_RECEIVE", -12), ("COMMAND_WRONG", -13), ("ARGUMENT_WRONG", -14),
   ("ARGUMENT", -15), ("RATE", -16), ("NOT_CONNECTED", -100),
   ("NOT_READY", -101), ("READY", -102), ("DEBUG_OPEN", -400),
   ("DEBUG_CLOSE", -401)]

/-- Two kind tables agree when any kind name present in both carries the
same numeric code in both. -/
def tablesAgree (t u : List (String × Int)) : Bool :=
  t.all fun p => u.all fun q => (!(p.1 == q.1)) || (p.2 == q.2)

/-! ## Size and addressing constants from the three headers -/

def COM_AMPR_12_MODULE_NUM : Nat := 12
def COM_AMPR_12_ADDR_BASE : Nat := 0x80
def COM_AMPR_12_ADDR_BROADCAST : Nat := 0xFF
def COM_AMPR_12_MODULE_NOT_FOUND : Nat := 0
def COM_AMPR_12_MODULE_PRESENT : Nat := 1
def COM_AMPR_12_MODULE_INVALID : Nat := 2
def COM_AMPR_12_PRESENCE_BASE : Nat := COM_AMPR_12_MODULE_NUM
def COM_AMPR_12_MAX_REG : Nat := 0x60 - 3
def COM_AMPR_12_MAX_CONFIG : Nat := 500
def COM_AMPR_12_CONFIG_NAME_SIZE : Nat := 0x89
def COM_AMPR_12_DATA_STRING_SIZE : Nat := 12
def COM_AMPR_12_PRODUCT_ID_SIZE : Nat := 81

def COM_HVPSU2D_MAX_PORT : Nat := 16
def COM_HVPSU2D_MAX_CONFIG : Nat := 168
def COM_HVPSU2D_CONFIG_NAME_SIZE : Nat := 75

def COM_HVAMX4ED_MAX_PORT : Nat := 16
def COM_HVAMX4ED_MAX_CONFIG : Nat := 126
def COM_HVAMX4ED_CONFIG_NAME_SIZE : Nat := 52

/-! ## Voltage-state bits of the AMPR-12 controller (COM-AMPR-12.h, lines 138-154)

The base bits and the derived masks `VS_SUPL_OK`, `VS_ANAL_OK`, `VS_HV_OK`,
`VS_HV_NZ` are well-formed in the header and are translated directly.  The
header's `COM_AMPR_12_VS_OK` is textually defined as
`(COM_AMPR_12_VS_SUP_OK | COM_AMPR_12_VS_ANAL_OK)`, where
`COM_AMPR_12_VS_SUP_OK` is not defined anywhere; that raw text is captured by
the preprocessor table `amprVsDefs` below instead of a Lean value. -/

def COM_AMPR_12_VS_3V3_OK : Nat := 1 <<< 0x0
def COM_AMPR_12_VS_5V0_OK : Nat := 1 <<< 0x1
def COM_AMPR_12_VS_12V_OK : Nat := 1 <<< 0x2
def COM_AMPR_12_VS_LINE_ON : Nat := 1 <<< 0x3
def COM_AMPR_12_VS_12VP_OK : Nat := 1 <<< 0x4
def COM_AMPR_12_VS_12VN_OK : Nat := 1 <<< 0x5
def COM_AMPR_12_VS_HVP_OK : Nat := 1 <<< 0x6
def COM_AMPR_12_VS_HVN_OK : Nat := 1 <<< 0x7
def COM_AMPR_12_VS_HVP_NZ : Nat := 1 <<< 0x8
def COM_AMPR_12_VS_HVN_NZ : Nat := 1 <<< 0x9
def COM_AMPR_12_VS_ICL_ON : Nat := 1 <<< 0xF
def COM_AMPR_12_VS_SUPL_OK : Nat :=
  COM_AMPR_12_VS_3V3_OK ||| COM_AMPR_12_VS_5V0_OK ||| COM_AMPR_12_VS_12V_OK
def COM_AMPR_12_VS_ANAL_OK : Nat :=
  COM_AMPR_12_VS_12VP_OK ||| COM_AMPR_12_VS_12VN_OK
def COM_AMPR_12_VS_HV_OK : Nat :=
  COM_AMPR_12_VS_HVP_OK ||| COM_AMPR_12_VS_HVN_OK
def COM_AMPR_12_VS_HV_NZ : Nat :=
  COM_AMPR_12_VS_HVP_NZ ||| COM_AMPR_12_VS_HVN_NZ

/-! ## Preprocessor-expression model for the voltage-state defines -/

/-- A C-preprocessor constant expression as it appears in the header:
a numeric literal, a reference to another define, a bitwise or, or a
left shift. -/
inductive PPExpr where
  | num : Nat → PPExpr
  | name : String → PPExpr
  | bor : PPExpr → PPExpr → PPExpr
  | shl : PPExpr → PPExpr → PPExpr
deriving Repr

/-- The voltage-state define table of COM-AMPR-12.h (lines 138-154),
transcribed expression by expression.  Line 153 references
`COM_AMPR_12_VS_SUP_OK`, which no line defines. -/
def amprVsDefs : List (String × PPExpr) :=
  [("COM_AMPR_12_VS_3V3_OK", .shl (.num 1) (.num 0x0)),
   ("COM_AMPR_12_VS_5V0_OK", .shl (.num 1) (.num 0x1)),
   ("COM_AMPR_12_VS_12V_OK", .shl (.num 1) (.num 0x2)),
   ("COM_AMPR_12_VS_LINE_ON", .shl (.num 1) (.num 0x3)),
   ("COM_AMPR_12_VS_12VP_OK", .shl (.num 1) (.num 0x4)),
   ("COM_AMPR_12_VS_12VN_OK", .shl (.num 1) (.num 0x5)),
   ("COM_AMPR_12_VS_HVP_OK", .shl (.num 1) (.num 0x6)),
   ("COM_AMPR_12_VS_HVN_OK", .shl (.num 1) (.num 0x7)),
   ("COM_AMPR_12_VS_HVP_NZ", .shl (.num 1) (.num 0x8)),
   ("COM_AMPR_12_VS_HVN_NZ", .shl (.num 1) (.num 0x9)),
   ("COM_AMPR_12_VS_ICL_ON", .shl (.num 1) (.num 0xF)),
   ("COM_AMPR_12_VS_SUPL_OK",
     .bor (.bor (.name "COM_AMPR_12_VS_3V3_OK") (.name "COM_AMPR_12_VS_5V0_OK"))
       (.name "COM_AMPR_12_VS_12V_OK")),
   ("COM_AMPR_12_VS_ANAL_OK",
     .bor (.name "COM_AMPR_12_VS_12VP_OK") (.name "COM_AMPR_12_VS_12VN_OK")),
   ("COM_AMPR_12_VS_HV_OK",
     .bor (.name "COM_AMPR_12_VS_HVP_OK") (.name "COM_AMPR_12_VS_HVN_OK")),
   ("COM_AMPR_12_VS_HV_NZ",
     .bor (.name "COM_AMPR_12_VS_HVP_NZ") (.name "COM_AMPR_12_VS_HVN_NZ")),
   ("COM_AMPR_12_VS_OK",
     .bor (.name "COM_AMPR_12_VS_SUP_OK") (.name "COM_AMPR_12_VS_ANAL_OK")),
   ("COM_AMPR_12_VS_ALL_OK",
     .bor (.name "COM_AMPR_12_VS_OK") (.name "COM_AMPR_12_VS_HV_OK"))]

/-- Evaluate a preprocessor expression against an environment of defines,
failing on a reference to an undefined name.  `fuel` bounds the reference
depth. -/
def ppEval (env : List (String × PPExpr)) : Nat → PPExpr → Option Nat
  | 0, _ => none
  | _ + 1, .num n => some n
  | fuel + 1, .name s =>
    match env.find? (fun p => p.1 == s) with
    | some p => ppEval env fuel p.2
    | none => none
  | fuel + 1, .bor a b =>
    match ppEval env fuel a, ppEval env fuel b with
    | some x, some y => some (x ||| y)
    | _, _ => none
  | fuel + 1, .shl a b =>
    match ppEval env fuel a, ppEval env fuel b with
    | some x, some y => some (x <<< y)
    | _, _ => none

/-- The value a use of a voltage-state define denotes, if it denotes one. -/
def amprVsValue (s : String) : Option Nat :=
  match amprVsDefs.find? (fun p => p.1 == s) with
  | some p => ppEval amprVsDefs 8 p.2
  | none => none

/-! ## Error-latching state (spec sections 4.3, 7, 9)

The headers only declare the query routines; the latching behaviour is
modelled from the spec. -/

/-- Error-handling exports of COM-AMPR-12.h (lines 292-298). -/
def amprErrorHandlingExports : List String :=
  ["COM_AMPR_12_GetInterfaceState", "COM_AMPR_12_GetErrorMessage",
   "COM_AMPR_12_GetIOErrorMessage", "COM_AMPR_12_GetIOState",
   "COM_AMPR_12_GetIOStateMessage", "COM_AMPR_12_GetCommError",
   "COM_AMPR_12_GetCommErrorMessage"]

/-- Error-handling exports of COM-HVPSU2D.h (lines 225-228). -/
def hvpsu2dErrorHandlingExports : List String :=
  ["COM_HVPSU2D_GetInterfaceState", "COM_HVPSU2D_GetErrorMessage",
   "COM_HVPSU2D_GetIOState", "COM_HVPSU2D_GetIOErrorMessage"]

/-- Error-handling exports of COM-HVAMX4ED.h (lines 275-278). -/
def hvamx4edErrorHandlingExports : List String :=
  ["COM_HVAMX4ED_GetInterfaceState", "COM_HVAMX4ED_GetErrorMessage",
   "COM_HVAMX4ED_GetIOState", "COM_HVAMX4ED_GetIOErrorMessage"]

/-- Latched per-channel error state: the last software-interface error code
and the last OS-level communication-port error code. -/
structure ErrState where
  lastIf : Int
  lastComm : Nat
deriving Repr, DecidableEq

/-- Modelled from the spec: the implementation of the error-latching policy
behind `GetIOState`/`GetCommError` is not in the repository (the headers
declare the queries only).  Section 7: a failed operation latches its error
kind (and, where applicable, the OS-level code separately); each latch is
cleared upon the next successful operation. -/
def recordResult (code : Int) (osCode : Nat) (_s : ErrState) : ErrState :=
  if code = 0 then { lastIf := 0, lastComm := 0 }
  else { lastIf := code, lastComm := osCode }

/-- Modelled from the spec: query-and-clear read of the latched
software-interface state (`GetIOState`). -/
def getIOState (s : ErrState) : Int × ErrState :=
  (s.lastIf, { s with lastIf := 0 })

/-- Modelled from the spec: query-and-clear read of the latched
communication-port error (`GetCommError`). -/
def getCommError (s : ErrState) : Nat × ErrState :=
  (s.lastComm, { s with lastComm := 0 })

/-! ## Response-frame decoding (spec section 4.2)

Modelled from the spec; the frame codec implementation is not in the
repository. -/

/-- A response frame: echoed address, echoed command code, payload bytes,
and the trailing termination byte. -/
structure RespFrame where
  addr : Nat
  cmd : Nat
  payload : List Nat
  term : Nat
deriving Repr, DecidableEq

/-- Modelled from the spec: decoding validates, in order, (1) the address
matches the addressed target or the broadcast value, else a `CommandWrong`
style failure; (2) the command code matches the one sent, else
`CommandWrong`; (3) the payload fields are within the domain's legal range,
else `ArgumentWrong`; (4) the termination byte is present and correct, else
`TermReceive`.  `payloadOk` is the per-command legal-domain predicate and
`termByte` the device's termination byte. -/
def decodeResponse (termByte expectedAddr broadcast expectedCmd : Nat)
    (payloadOk : List Nat → Bool) (f : RespFrame) : Int :=
  if f.addr ≠ expectedAddr ∧ f.addr ≠ broadcast then COM_AMPR_12_ERR_COMMAND_WRONG
  else if f.cmd ≠ expectedCmd then COM_AMPR_12_ERR_COMMAND_WRONG
  else if ¬ payloadOk f.payload then COM_AMPR_12_ERR_ARGUMENT_WRONG
  else if f.term ≠ termByte then COM_AMPR_12_ERR_TERM_RECEIVE
  else COM_AMPR_12_NO_ERR

/-! ## Configuration-slot manager (spec section 4.5)

Modelled from the spec; the slot-manager implementation is not in the
repository.  The model is parametric in the family's `MAX_CONFIG` bound. -/

/-- One non-volatile configuration slot: a register snapshot, a display
name, and the `Active`/`Valid` flags. -/
structure Slot where
  data : List Nat
  name : List Nat
  active : Bool
  valid : Bool

/-- Device-side state: the live register set plus the slot bank. -/
structure Device where
  live : List Nat
  slots : Nat → Slot

/-- Engine-side channel state: the latched errors plus a transport
call counter used to observe wire I/O. -/
structure Engine where
  err : ErrState
  wireCount : Nat

/-- Engine state after a successful wire transaction: one more transport
call, both latches cleared (spec section 7). -/
def okStep (e : Engine) : Engine :=
  { err := { lastIf := 0, lastComm := 0 }, wireCount := e.wireCount + 1 }

/-- Engine state after a failed wire transaction: one more transport call,
the error kind latched. -/
def failStep (code : Int) (e : Engine) : Engine :=
  { err := { e.err with lastIf := code }, wireCount := e.wireCount + 1 }

/-- Modelled from the spec: `SaveCurrentConfig`.  Slot numbers are
bounds-checked against `MAX_CONFIG`; out-of-range requests fail with the
local argument error without touching the channel.  Saving stores the live
register set in the slot and marks it `Valid`. -/
def saveCurrentConfig (maxCfg n : Nat) (e : Engine) (d : Device) :
    Int × Engine × Device :=
  if n < maxCfg then
    (0, okStep e,
      { d with slots := fun i =>
          if i = n then { d.slots i with data := d.live, valid := true }
          else d.slots i })
  else (COM_AMPR_12_ERR_ARGUMENT, e, d)

/-- Modelled from the spec: `LoadCurrentConfig`.  Bounds-checked like all
slot operations; loading a valid slot copies its register snapshot into the
live configuration, marks that slot active and clears the previous active
flag; loading a never-saved (invalid) slot fails on the device. -/
def loadCurrentConfig (maxCfg n : Nat) (e : Engine) (d : Device) :
    Int × Engine × Device :=
  if n < maxCfg then
    if (d.slots n).valid then
      (0, okStep e,
        { live := (d.slots n).data,
          slots := fun i =>
            if i = n then { d.slots i with active := true }
            else { d.slots i with active := false } })
    else (COM_AMPR_12_ERR_ARGUMENT_WRONG,
      failStep COM_AMPR_12_ERR_ARGUMENT_WRONG e, d)
  else (COM_AMPR_12_ERR_ARGUMENT, e, d)

/-- Modelled from the spec: a string-output operation writes at most the
documented capacity `cap` into the caller-owned buffer, truncating the
source bytes and zero-terminating on success (spec section 6). -/
def boundedWrite (cap : Nat) (src : List Nat) : List Nat :=
  src.take (cap - 1) ++ [0]

/-- Modelled from the spec: `GetConfigName`, writing the stored name into a
caller buffer of capacity `cap` (bounds-checked, wire read on success). -/
def getConfigName (cap maxCfg n : Nat) (e : Engine) (d : Device) :
    Int × Engine × Device × List Nat :=
  if n < maxCfg then
    (0, okStep e, d, boundedWrite cap (d.slots n).name)
  else (COM_AMPR_12_ERR_ARGUMENT, e, d, [])

/-- Modelled from the spec: `SetConfigName` (bounds-checked wire write). -/
def setConfigName (maxCfg n : Nat) (nm : List Nat) (e : Engine) (d : Device) :
    Int × Engine × Device :=
  if n < maxCfg then
    (0, okStep e,
      { d with slots := fun i =>
          if i = n then { d.slots i with name := nm } else d.slots i })
  else (COM_AMPR_12_ERR_ARGUMENT, e, d)

/-- Modelled from the spec: `GetConfigData` (bounds-checked wire read of a
slot's register snapshot). -/
def getConfigData (maxCfg n : Nat) (e : Engine) (d : Device) :
    Int × Engine × Device × List Nat :=
  if n < maxCfg then (0, okStep e, d, (d.slots n).data)
  else (COM_AMPR_12_ERR_ARGUMENT, e, d, [])

/-- Modelled from the spec: `SetConfigData` (bounds-checked wire write of a
slot's register snapshot; like saving, it leaves well-formed content, so
the slot is marked `Valid`). -/
def setConfigData (maxCfg n : Nat) (cfg : List Nat) (e : Engine) (d : Device) :
    Int × Engine × Device :=
  if n < maxCfg then
    (0, okStep e,
      { d with slots := fun i =>
          if i = n then { d.slots i with data := cfg, valid := true }
          else d.slots i })
  else (COM_AMPR_12_ERR_ARGUMENT, e, d)

/-- Modelled from the spec: `GetConfigFlags` (bounds-checked wire read of
the `Active`/`Valid` flags). -/
def getConfigFlags (maxCfg n : Nat) (e : Engine) (d : Device) :
    Int × Engine × Device × Bool × Bool :=
  if n < maxCfg then
    (0, okStep e, d, (d.slots n).active, (d.slots n).valid)
  else (COM_AMPR_12_ERR_ARGUMENT, e, d, false, false)

/-- Modelled from the spec: `SetConfigFlags` (bounds-checked wire write of
the flags).  The data model declares at most one slot `Active` at a time
(spec section 3), so setting a slot `Active` clears the previous active
flag, exactly as a load does. -/
def setConfigFlags (maxCfg n : Nat) (a v : Bool) (e : Engine) (d : Device) :
    Int × Engine × Device :=
  if n < maxCfg then
    (0, okStep e,
      { d with slots := fun i =>
          if i = n then { d.slots i with active := a, valid := v }
          else if a then { d.slots i with active := false }
          else d.slots i })
  else (COM_AMPR_12_ERR_ARGUMENT, e, d)

/-- At most one slot of the bank is flagged `Active` (spec section 3). -/
def atMostOneActive (maxCfg : Nat) (d : Device) : Prop :=
  ∀ i j, i < maxCfg → j < maxCfg →
    (d.slots i).active = true → (d.slots j).active = true → i = j

/-! ## Module presence (COM-AMPR-12.h, lines 210-216; spec section 4.4) -/

/-- Presence classification of an addressable target
(spec section 3: `NotFound | Present | InvalidType`). -/
inductive Presence where
  | notFound
  | present
  | invalidType
deriving Repr, DecidableEq

/-- Wire encoding of the presence classification, using the return values
documented for `COM_AMPR_12_GetModulePresence`. -/
def presenceCode : Presence → Nat
  | .notFound => COM_AMPR_12_MODULE_NOT_FOUND
  | .present => COM_AMPR_12_MODULE_PRESENT
  | .invalidType => COM_AMPR_12_MODULE_INVALID

/-- Modelled from the spec: `COM_AMPR_12_GetModulePresence` fills the
caller's `BYTE ModulePresence [COM_AMPR_12_MODULE_NUM + 1]` array with the
presence classification of each target; index `COM_AMPR_12_PRESENCE_BASE`
is the base module itself.  `scan` is the device's per-index
classification. -/
def getModulePresence (scan : Nat → Presence) : List Nat :=
  (List.range (COM_AMPR_12_MODULE_NUM + 1)).map fun i => presenceCode (scan i)

/-! ## Module-scan baseline (COM-AMPR-12.h, lines 223-226; spec section 4.4) -/

/-- Module-scan state: the per-module parameters of the current scan and of
the last saved baseline (cf. `COM_AMPR_12_GetScannedModuleParams`, which
reports scanned and saved product number and hardware type). -/
structure ModuleScanState where
  scanned : List (Nat × Nat)
  saved : List (Nat × Nat)
deriving Repr, DecidableEq

/-- Modelled from the spec: `COM_AMPR_12_GetScannedModuleState` reports
whether the currently scanned topology differs from the last saved one
(`ModuleMismatch`) and whether any present module's electrical rating is
incompatible with the base controller (`RatingFailure`, a hardware fact
computed from the scanned modules by the device's rating rule
`ratingBad`). -/
def getScannedModuleState (ratingBad : List (Nat × Nat) → Bool)
    (st : ModuleScanState) : Bool × Bool :=
  (decide (st.scanned ≠ st.saved), ratingBad st.scanned)

/-- Modelled from the spec: `COM_AMPR_12_SetScannedModuleState` commits the
current scan as the new saved baseline; as a transaction it can fail on the
wire (`transportOk = false`), leaving the state unchanged. -/
def setScannedModuleState (transportOk : Bool) (st : ModuleScanState) :
    Int × ModuleScanState :=
  if transportOk then (0, { st with saved := st.scanned })
  else (COM_AMPR_12_ERR_COMMAND_SEND, st)

/-! ## Concrete states used by the witnesses -/

/-- A concrete engine state with a latched failure and a nonzero transport
counter. -/
def engW : Engine :=
  { err := { lastIf := COM_AMPR_12_ERR_COMMAND_SEND, lastComm := 3 }, wireCount := 5 }

/-- A concrete device state: a full-size live register set and an empty,
all-inactive slot bank. -/
def devW : Device :=
  { live := List.replicate COM_AMPR_12_MAX_REG 0,
    slots := fun _ => { data := [], name := [], active := false, valid := false } }

/-! ## Claim C1 -/

/-- Claim C1, counterexample: the HVPSU2D header documents
`COM_HVPSU2D_ERR_DEBUG_OPEN = -400` as a possible return value, a nonzero
status code that is not among the sixteen wire-stage kinds plus the three
availability kinds, so the claimed code set is incomplete. -/
theorem C1_claim_counterexample :
    COM_HVPSU2D_ERR_DEBUG_OPEN ∈ hvpsu2dStatusCodes ∧
    COM_HVPSU2D_ERR_DEBUG_OPEN ∉ claimedKinds ∧
    COM_HVPSU2D_ERR_DEBUG_OPEN ≠ COM_HVPSU2D_NO_ERR := by
  decide

/-- Claim C1 (amended): every documented status code of each family is `0`
(success) or negative; every nonzero AMPR-12 code is one of the sixteen
wire-stage kinds plus the three availability kinds; every nonzero HVPSU2D or
HVAMX4ED code is one of those nineteen kinds or one of the two debug-output
kinds `-400`/`-401`; and any kind name shared by two families carries the
same numeric code in both. -/
theorem C1_status_code_contract :
    (amprStatusCodes.all fun c => c == 0 || decide (c < 0)) = true ∧
    (hvpsu2dStatusCodes.all fun c => c == 0 || decide (c < 0)) = true ∧
    (hvamx4edStatusCodes.all fun c => c == 0 || decide (c < 0)) = true ∧
    (amprStatusCodes.all fun c => c == 0 || decide (c ∈ claimedKinds)) = true ∧
    (hvpsu2dStatusCodes.all fun c =>
      c == 0 || decide (c ∈ claimedKinds) ||
      c == COM_HVPSU2D_ERR_DEBUG_OPEN || c == COM_HVPSU2D_ERR_DEBUG_CLOSE) = true ∧
    (hvamx4edStatusCodes.all fun c =>
      c == 0 || decide (c ∈ claimedKinds) ||
      c == COM_HVAMX4ED_ERR_DEBUG_OPEN || c == COM_HVAMX4ED_ERR_DEBUG_CLOSE) = true ∧
    tablesAgree amprErrTable hvpsu2dErrTable = true ∧
    tablesAgree amprErrTable hvamx4edErrTable = true ∧
    tablesAgree hvpsu2dErrTable hvamx4edErrTable = true ∧
    COM_AMPR_12_NO_ERR = 0 ∧ COM_HVPSU2D_NO_ERR = 0 ∧ COM_HVAMX4ED_NO_ERR = 0 ∧
    COM_AMPR_12_ERR_NOT_CONNECTED = -100 ∧
    COM_AMPR_12_ERR_NOT_READY = -101 ∧
    COM_AMPR_12_ERR_READY = -102 := by
  decide

/-! ## Claim C10 -/

/-- Claim C10: the header's definition of `COM_AMPR_12_VS_OK` (line 153)
references `COM_AMPR_12_VS_SUP_OK`, which no line of the header defines
(line 149 defines `COM_AMPR_12_VS_SUPL_OK`), so neither `COM_AMPR_12_VS_OK`
nor `COM_AMPR_12_VS_ALL_OK` (which expands through it) denotes a value,
while both intended operands evaluate fine and the intended values are
`0x37` and `0xF7`. -/
theorem C10_vs_ok_undefined_reference :
    amprVsValue "COM_AMPR_12_VS_OK" = none ∧
    amprVsValue "COM_AMPR_12_VS_ALL_OK" = none ∧
    amprVsValue "COM_AMPR_12_VS_SUP_OK" = none ∧
    amprVsValue "COM_AMPR_12_VS_SUPL_OK" = some COM_AMPR_12_VS_SUPL_OK ∧
    amprVsValue "COM_AMPR_12_VS_ANAL_OK" = some COM_AMPR_12_VS_ANAL_OK ∧
    amprVsValue "COM_AMPR_12_VS_HV_OK" = some COM_AMPR_12_VS_HV_OK ∧
    COM_AMPR_12_VS_SUPL_OK ||| COM_AMPR_12_VS_ANAL_OK = 0x37 ∧
    (COM_AMPR_12_VS_SUPL_OK ||| COM_AMPR_12_VS_ANAL_OK) |||
      COM_AMPR_12_VS_HV_OK = 0xF7 := by
  decide

/-! ## Claim C2 -/

/-- Claim C2: for every slot number at or above the family's `MAX_CONFIG`
bound (500 for AMPR-12, 168 for HVPSU2D, 126 for HVAMX4ED), every
slot-manager operation returns the local argument error `-15` unchanged in
all three families and performs zero wire I/O, leaving the engine state
(transport counter and both latched errors) and the device untouched. -/
theorem C2_out_of_range_slot_noop (maxCfg n cap : Nat) (nm cfg : List Nat)
    (a v : Bool) (e : Engine) (d : Device) (h : maxCfg ≤ n) :
    saveCurrentConfig maxCfg n e d = (COM_AMPR_12_ERR_ARGUMENT, e, d) ∧
    loadCurrentConfig maxCfg n e d = (COM_AMPR_12_ERR_ARGUMENT, e, d) ∧
    getConfigName cap maxCfg n e d = (COM_AMPR_12_ERR_ARGUMENT, e, d, []) ∧
    setConfigName maxCfg n nm e d = (COM_AMPR_12_ERR_ARGUMENT, e, d) ∧
    getConfigData maxCfg n e d = (COM_AMPR_12_ERR_ARGUMENT, e, d, []) ∧
    setConfigData maxCfg n cfg e d = (COM_AMPR_12_ERR_ARGUMENT, e, d) ∧
    getConfigFlags maxCfg n e d = (COM_AMPR_12_ERR_ARGUMENT, e, d, false, false) ∧
    setConfigFlags maxCfg n a v e d = (COM_AMPR_12_ERR_ARGUMENT, e, d) ∧
    COM_AMPR_12_MAX_CONFIG = 500 ∧ COM_HVPSU2D_MAX_CONFIG = 168 ∧
    COM_HVAMX4ED_MAX_CONFIG = 126 ∧ COM_AMPR_12_ERR_ARGUMENT = -15 ∧
    COM_HVPSU2D_ERR_ARGUMENT = -15 ∧ COM_HVAMX4ED_ERR_ARGUMENT = -15 := by
  have hn : ¬ n < maxCfg := Nat.not_lt.mpr h
  refine ⟨?_, ?_, ?_, ?_, ?_, ?_, ?_, ?_, rfl, rfl, rfl, rfl, rfl, rfl⟩ <;>
    simp [saveCurrentConfig, loadCurrentConfig, getConfigName, setConfigName,
      getConfigData, setConfigData, getConfigFlags, setConfigFlags, hn]

/-- Claim C2, witness: the AMPR-12 bound itself is out of range and the
save operation leaves a concrete engine/device pair untouched. -/
theorem C2_out_of_range_slot_noop_witness :
    COM_AMPR_12_MAX_CONFIG ≤ 500 ∧
    saveCurrentConfig COM_AMPR_12_MAX_CONFIG 500 engW devW =
      (COM_AMPR_12_ERR_ARGUMENT, engW, devW) :=
  ⟨by decide,
   (C2_out_of_range_slot_noop COM_AMPR_12_MAX_CONFIG 500
     COM_AMPR_12_CONFIG_NAME_SIZE [] [] false false engW devW (by decide)).1⟩

/-! ## Claim C4 -/

/-- Claim C4: for every register snapshot and every in-range slot number,
saving the current configuration and then loading the same slot succeeds
and restores the live register set to exactly the saved snapshot
(`load(save(registers)) == registers`), for the full fixed-size register
sequence of `COM_AMPR_12_MAX_REG = 93` registers. -/
theorem C4_save_load_roundtrip (maxCfg n : Nat) (e : Engine) (d : Device)
    (hn : n < maxCfg) (hlen : d.live.length = COM_AMPR_12_MAX_REG) :
    (saveCurrentConfig maxCfg n e d).1 = 0 ∧
    (loadCurrentConfig maxCfg n (saveCurrentConfig maxCfg n e d).2.1
      (saveCurrentConfig maxCfg n e d).2.2).1 = 0 ∧
    (loadCurrentConfig maxCfg n (saveCurrentConfig maxCfg n e d).2.1
      (saveCurrentConfig maxCfg n e d).2.2).2.2.live = d.live ∧
    (loadCurrentConfig maxCfg n (saveCurrentConfig maxCfg n e d).2.1
      (saveCurrentConfig maxCfg n e d).2.2).2.2.live.length =
      COM_AMPR_12_MAX_REG ∧
    COM_AMPR_12_MAX_REG = 93 := by
  refine ⟨?_, ?_, ?_, ?_, rfl⟩ <;>
    simp [saveCurrentConfig, loadCurrentConfig, okStep, hn, hlen]

/-- Claim C4, witness: the round trip through slot 7 on a concrete device
restores the concrete live register set. -/
theorem C4_save_load_roundtrip_witness :
    7 < COM_AMPR_12_MAX_CONFIG ∧ devW.live.length = COM_AMPR_12_MAX_REG ∧
    (loadCurrentConfig COM_AMPR_12_MAX_CONFIG 7
      (saveCurrentConfig COM_AMPR_12_MAX_CONFIG 7 engW devW).2.1
      (saveCurrentConfig COM_AMPR_12_MAX_CONFIG 7 engW devW).2.2).2.2.live =
      devW.live :=
  ⟨by decide, by decide,
   (C4_save_load_roundtrip COM_AMPR_12_MAX_CONFIG 7 engW devW
     (by decide) (by decide)).2.2.1⟩

/-! ## Claim C5 -/

/-- Claim C5: the at-most-one-`Active` invariant is preserved by every
slot-manager operation, including `SetConfigFlags`; and a successful load
of slot `n` copies its snapshot into the live configuration, marks slot `n`
`Active` and clears the `Active` flag of every other slot. -/
theorem C5_at_most_one_active (maxCfg n cap : Nat) (nm cfg : List Nat)
    (a v : Bool) (e : Engine) (d : Device)
    (hInv : atMostOneActive maxCfg d) :
    atMostOneActive maxCfg (saveCurrentConfig maxCfg n e d).2.2 ∧
    atMostOneActive maxCfg (loadCurrentConfig maxCfg n e d).2.2 ∧
    atMostOneActive maxCfg (setConfigName maxCfg n nm e d).2.2 ∧
    atMostOneActive maxCfg (setConfigData maxCfg n cfg e d).2.2 ∧
    atMostOneActive maxCfg (setConfigFlags maxCfg n a v e d).2.2 ∧
    atMostOneActive maxCfg (getConfigName cap maxCfg n e d).2.2.1 ∧
    atMostOneActive maxCfg (getConfigData maxCfg n e d).2.2.1 ∧
    atMostOneActive maxCfg (getConfigFlags maxCfg n e d).2.2.1 ∧
    (n < maxCfg → (d.slots n).valid = true →
      (loadCurrentConfig maxCfg n e d).1 = 0 ∧
      (loadCurrentConfig maxCfg n e d).2.2.live = (d.slots n).data ∧
      ((loadCurrentConfig maxCfg n e d).2.2.slots n).active = true ∧
      ∀ m, m ≠ n → ((loadCurrentConfig maxCfg n e d).2.2.slots m).active = false) := by
  have hle : ∀ d' : Device,
      (∀ i, (d'.slots i).active = true → (d.slots i).active = true) →
      atMostOneActive maxCfg d' := by
    intro d' hmap i j hi hj hai haj
    exact hInv i j hi hj (hmap i hai) (hmap j haj)
  have huniq : ∀ (d' : Device) (m : Nat),
      (∀ i, (d'.slots i).active = true → i = m) →
      atMostOneActive maxCfg d' := by
    intro d' m hmap i j _ _ hai haj
    rw [hmap i hai, hmap j haj]
  refine ⟨?_, ?_, ?_, ?_, ?_, ?_, ?_, ?_, ?_⟩
  · by_cases hn : n < maxCfg
    · refine hle _ ?_
      intro i hai
      simp only [saveCurrentConfig, if_pos hn] at hai
      by_cases hi : i = n
      · simp only [if_pos hi] at hai
        exact hai
      · simp only [if_neg hi] at hai
        exact hai
    · simpa [saveCurrentConfig, if_neg hn] using hInv
  · by_cases hn : n < maxCfg
    · by_cases hv : (d.slots n).valid
      · refine huniq _ n ?_
        intro i hai
        simp only [loadCurrentConfig, if_pos hn, if_pos hv] at hai
        by_cases hi : i = n
        · exact hi
        · simp only [if_neg hi] at hai
          exact absurd hai (by simp)
      · simpa [loadCurrentConfig, if_pos hn, if_neg hv] using hInv
    · simpa [loadCurrentConfig, if_neg hn] using hInv
  · by_cases hn : n < maxCfg
    · refine hle _ ?_
      intro i hai
      simp only [setConfigName, if_pos hn] at hai
      by_cases hi : i = n
      · simp only [if_pos hi] at hai
        exact hai
      · simp only [if_neg hi] at hai
        exact hai
    · simpa [setConfigName, if_neg hn] using hInv
  · by_cases hn : n < maxCfg
    · refine hle _ ?_
      intro i hai
      simp only [setConfigData, if_pos hn] at hai
      by_cases hi : i = n
      · simp only [if_pos hi] at hai
        exact hai
      · simp only [if_neg hi] at hai
        exact hai
    · simpa [setConfigData, if_neg hn] using hInv
  · by_cases hn : n < maxCfg
    · cases a with
      | true =>
        refine huniq _ n ?_
        intro i hai
        simp only [setConfigFlags, if_pos hn] at hai
        by_cases hi : i = n
        · exact hi
        · simp only [if_neg hi, if_pos rfl] at hai
          exact absurd hai (by simp)
      | false =>
        refine hle _ ?_
        intro i hai
        simp only [setConfigFlags, if_pos hn] at hai
        by_cases hi : i = n
        · simp only [if_pos hi] at hai
          exact absurd hai (by simp)
        · simp only [if_neg hi] at hai
          simpa using hai
    · simpa [setConfigFlags, if_neg hn] using hInv
  · by_cases hn : n < maxCfg <;> simpa [getConfigName, hn] using hInv
  · by_cases hn : n < maxCfg <;> simpa [getConfigData, hn] using hInv
  · by_cases hn : n < maxCfg <;> simpa [getConfigFlags, hn] using hInv
  · intro hn hv
    refine ⟨?_, ?_, ?_, ?_⟩
    · simp [loadCurrentConfig, hn, hv]
    · simp [loadCurrentConfig, hn, hv]
    · simp [loadCurrentConfig, hn, hv]
    · intro m hm
      simp [loadCurrentConfig, hn, hv, hm]

/-- Claim C5, witness: the invariant holds of the all-inactive concrete
device and is preserved when `SetConfigFlags` marks slot 3 `Active`. -/
theorem C5_at_most_one_active_witness :
    atMostOneActive COM_AMPR_12_MAX_CONFIG devW ∧
    atMostOneActive COM_AMPR_12_MAX_CONFIG
      (setConfigFlags COM_AMPR_12_MAX_CONFIG 3 true true engW devW).2.2 := by
  have hInv : atMostOneActive COM_AMPR_12_MAX_CONFIG devW := by
    intro i j _ _ hai _
    exact absurd hai (by simp [devW])
  exact ⟨hInv,
    (C5_at_most_one_active COM_AMPR_12_MAX_CONFIG 3
      COM_AMPR_12_CONFIG_NAME_SIZE [] [] true true engW devW hInv).2.2.2.2.1⟩

/-! ## Claim C3 -/

/-- Claim C3, counterexample: with target address `0x80`, broadcast `0xFF`,
expected command `5` and a boolean payload domain, a response whose only
corruption is the address and a response whose only corruption is the
command echo decode to the same kind `-13`, so the four ordered checks do
not each yield their own distinct error kind (only three kinds exist). -/
theorem C3_claim_counterexample :
    decodeResponse 0x0D 0x80 0xFF 5 (fun p => p.all fun b => decide (b ≤ 1))
      ⟨0x81, 5, [1], 0x0D⟩ = COM_AMPR_12_ERR_COMMAND_WRONG ∧
    decodeResponse 0x0D 0x80 0xFF 5 (fun p => p.all fun b => decide (b ≤ 1))
      ⟨0x80, 6, [1], 0x0D⟩ = COM_AMPR_12_ERR_COMMAND_WRONG ∧
    COM_AMPR_12_ERR_COMMAND_WRONG ≠ COM_AMPR_12_ERR_ARGUMENT_WRONG ∧
    COM_AMPR_12_ERR_COMMAND_WRONG ≠ COM_AMPR_12_ERR_TERM_RECEIVE := by
  decide

/-- Claim C3 (amended): decoding checks, in this order, address match,
command-code match, payload-domain validity, termination byte; the address
and command checks share the kind `ERR_COMMAND_WRONG (-13)` while the
payload and termination checks have their own kinds.  For every command, a
response whose only corruption is the termination byte yields
`ERR_TERM_RECEIVE (-12)` and never any other kind; a mismatched command
echo yields `ERR_COMMAND_WRONG (-13)`; a payload outside its legal domain
yields `ERR_ARGUMENT_WRONG (-14)`; an uncorrupted response decodes
successfully. -/
theorem C3_decode_order_and_kinds (termByte ea bc ec : Nat)
    (pOk : List Nat → Bool) (f : RespFrame)
    (haddr : f.addr = ea ∨ f.addr = bc) :
    (f.cmd ≠ ec →
      decodeResponse termByte ea bc ec pOk f = COM_AMPR_12_ERR_COMMAND_WRONG) ∧
    (f.cmd = ec → pOk f.payload = false →
      decodeResponse termByte ea bc ec pOk f = COM_AMPR_12_ERR_ARGUMENT_WRONG) ∧
    (f.cmd = ec → pOk f.payload = true → f.term ≠ termByte →
      decodeResponse termByte ea bc ec pOk f = COM_AMPR_12_ERR_TERM_RECEIVE) ∧
    (f.cmd = ec → pOk f.payload = true → f.term = termByte →
      decodeResponse termByte ea bc ec pOk f = COM_AMPR_12_NO_ERR) ∧
    (∀ g : RespFrame, g.addr ≠ ea → g.addr ≠ bc →
      decodeResponse termByte ea bc ec pOk g = COM_AMPR_12_ERR_COMMAND_WRONG) := by
  have haddr' : ¬ (f.addr ≠ ea ∧ f.addr ≠ bc) := by
    rcases haddr with h | h <;> simp [h]
  refine ⟨?_, ?_, ?_, ?_, ?_⟩
  · intro hc
    simp [decodeResponse, haddr', hc]
  · intro hc hp
    simp [decodeResponse, haddr', hc, hp]
  · intro hc hp ht
    simp [decodeResponse, haddr', hc, hp, ht]
  · intro hc hp ht
    simp [decodeResponse, haddr', hc, hp, ht]
  · intro g ha hb
    simp [decodeResponse, ha, hb]

/-- Claim C3, witness: a concrete frame whose only corruption is the
termination byte decodes to `ERR_TERM_RECEIVE`. -/
theorem C3_decode_order_and_kinds_witness :
    ((0x80 : Nat) = 0x80 ∨ (0x80 : Nat) = 0xFF) ∧
    decodeResponse 0x0D 0x80 0xFF 5 (fun p => p.all fun b => decide (b ≤ 1))
      ⟨0x80, 5, [1], 0x0E⟩ = COM_AMPR_12_ERR_TERM_RECEIVE :=
  ⟨Or.inl rfl,
   (C3_decode_order_and_kinds 0x0D 0x80 0xFF 5
       (fun p => p.all fun b => decide (b ≤ 1)) ⟨0x80, 5, [1], 0x0E⟩
       (Or.inl rfl)).2.2.1 rfl (by decide) (by decide)⟩

/-! ## Claim C6 -/

/-- Claim C6: a failed operation latches its error kind in the channel's
last-interface-error state and the OS-level code in the separate
last-comm-port-error state; a successful operation clears both latches; the
explicit queries `GetIOState` and `GetCommError` return the latched value
and clear it in the same step; and the `GetIOState` query is exported by
all three device families (`GetCommError` by the AMPR-12 family). -/
theorem C6_error_latching (s : ErrState) (code : Int) (osCode : Nat)
    (hfail : code ≠ 0) :
    recordResult code osCode s = { lastIf := code, lastComm := osCode } ∧
    (∀ (t : ErrState) (os : Nat),
      recordResult 0 os t = { lastIf := 0, lastComm := 0 }) ∧
    (∀ t : ErrState,
      getIOState t = (t.lastIf, { lastIf := 0, lastComm := t.lastComm })) ∧
    (∀ t : ErrState,
      getCommError t = (t.lastComm, { lastIf := t.lastIf, lastComm := 0 })) ∧
    "COM_AMPR_12_GetIOState" ∈ amprErrorHandlingExports ∧
    "COM_HVPSU2D_GetIOState" ∈ hvpsu2dErrorHandlingExports ∧
    "COM_HVAMX4ED_GetIOState" ∈ hvamx4edErrorHandlingExports ∧
    "COM_AMPR_12_GetCommError" ∈ amprErrorHandlingExports := by
  refine ⟨?_, ?_, ?_, ?_, by decide, by decide, by decide, by decide⟩
  · simp [recordResult, hfail]
  · intro t os
    simp [recordResult]
  · intro t
    rfl
  · intro t
    rfl

/-- Claim C6, witness: a concrete failed transaction latches `-12` and the
OS code `87`, and the queries read and clear them. -/
theorem C6_error_latching_witness :
    COM_AMPR_12_ERR_TERM_RECEIVE ≠ 0 ∧
    recordResult COM_AMPR_12_ERR_TERM_RECEIVE 87 ⟨0, 0⟩ =
      { lastIf := COM_AMPR_12_ERR_TERM_RECEIVE, lastComm := 87 } :=
  ⟨by decide,
   (C6_error_latching ⟨0, 0⟩ COM_AMPR_12_ERR_TERM_RECEIVE 87 (by decide)).1⟩

/-! ## Claim C7 -/

/-- Claim C7, counterexample: the AMPR-12 configuration-name capacity is
`COM_AMPR_12_CONFIG_NAME_SIZE = 0x89 = 137` bytes, not 89 bytes as the
claim states. -/
theorem C7_claim_counterexample :
    COM_AMPR_12_CONFIG_NAME_SIZE = 137 ∧ COM_AMPR_12_CONFIG_NAME_SIZE ≠ 89 := by
  decide

/-- Claim C7 (amended): a string-output operation writes at most the
documented capacity into the caller-owned buffer and the written string is
zero-terminated within that capacity; the documented capacities are the
12-byte date string and 81-byte product id, and a config name of 75 bytes
for HVPSU2D, 52 for HVAMX4ED, and 137 (`0x89`) for AMPR-12. -/
theorem C7_bounded_output (cap : Nat) (src : List Nat) (hcap : 1 ≤ cap) :
    (boundedWrite cap src).length ≤ cap ∧
    (boundedWrite cap src).getLast? = some 0 ∧
    (∀ (maxCfg n : Nat) (e : Engine) (d : Device), n < maxCfg →
      (getConfigName cap maxCfg n e d).2.2.2 = boundedWrite cap (d.slots n).name) ∧
    COM_AMPR_12_DATA_STRING_SIZE = 12 ∧
    COM_AMPR_12_PRODUCT_ID_SIZE = 81 ∧
    COM_HVPSU2D_CONFIG_NAME_SIZE = 75 ∧
    COM_HVAMX4ED_CONFIG_NAME_SIZE = 52 ∧
    COM_AMPR_12_CONFIG_NAME_SIZE = 137 := by
  refine ⟨?_, ?_, ?_, rfl, rfl, rfl, rfl, rfl⟩
  · have := List.length_take_le (cap - 1) src
    simp only [boundedWrite, List.length_append, List.length_singleton]
    omega
  · simp [boundedWrite]
  · intro maxCfg n e d hn
    simp [getConfigName, hn]

/-- Claim C7, witness: writing a 200-byte name into the 137-byte AMPR-12
name buffer stays within capacity. -/
theorem C7_bounded_output_witness :
    1 ≤ COM_AMPR_12_CONFIG_NAME_SIZE ∧
    (boundedWrite COM_AMPR_12_CONFIG_NAME_SIZE (List.replicate 200 65)).length ≤
      COM_AMPR_12_CONFIG_NAME_SIZE :=
  ⟨by decide,
   (C7_bounded_output COM_AMPR_12_CONFIG_NAME_SIZE (List.replicate 200 65)
     (by decide)).1⟩

/-! ## Claim C8 -/

/-- Claim C8: after a successful `SetScannedModuleState`, a subsequent
`GetScannedModuleState` reports `ModuleMismatch = false`, while the
`RatingFailure` flag it reports is exactly the flag reported before the
commit (the commit does not re-evaluate the rating). -/
theorem C8_commit_clears_mismatch_only
    (ratingBad : List (Nat × Nat) → Bool) (transportOk : Bool)
    (st st' : ModuleScanState)
    (h : setScannedModuleState transportOk st = (0, st')) :
    getScannedModuleState ratingBad st' =
      (false, (getScannedModuleState ratingBad st).2) := by
  cases transportOk
  · have h0 := congrArg Prod.fst h
    simp [setScannedModuleState, COM_AMPR_12_ERR_COMMAND_SEND] at h0
  · have hst : st' = { st with saved := st.scanned } := by
      simpa [setScannedModuleState] using congrArg Prod.snd h |>.symm
    subst hst
    simp [getScannedModuleState]

/-- Claim C8, witness: committing a concrete scan clears the mismatch and
reports the same rating flag as before. -/
theorem C8_commit_clears_mismatch_only_witness :
    setScannedModuleState true ⟨[(1, 2)], []⟩ = (0, ⟨[(1, 2)], [(1, 2)]⟩) ∧
    getScannedModuleState (fun l => decide (l ≠ [])) ⟨[(1, 2)], [(1, 2)]⟩ =
      (false,
        (getScannedModuleState (fun l => decide (l ≠ [])) ⟨[(1, 2)], []⟩).2) :=
  ⟨rfl,
   C8_commit_clears_mismatch_only (fun l => decide (l ≠ [])) true
     ⟨[(1, 2)], []⟩ ⟨[(1, 2)], [(1, 2)]⟩ rfl⟩

/-! ## Claim C9 -/

/-- Claim C9: the presence array returned by `GetModulePresence` holds
`COM_AMPR_12_MODULE_NUM + 1 = 13` entries; the entry at index
`COM_AMPR_12_PRESENCE_BASE = 12` reports the base module's own
classification; and every entry is exactly one of `NOT_FOUND = 0`,
`PRESENT = 1`, `INVALID = 2`. -/
theorem C9_module_presence_shape (scan : Nat → Presence) :
    (getModulePresence scan).length = COM_AMPR_12_MODULE_NUM + 1 ∧
    COM_AMPR_12_MODULE_NUM + 1 = 13 ∧
    COM_AMPR_12_PRESENCE_BASE = 12 ∧
    (getModulePresence scan).get? COM_AMPR_12_PRESENCE_BASE =
      some (presenceCode (scan COM_AMPR_12_PRESENCE_BASE)) ∧
    ((getModulePresence scan).all fun b =>
      (b == COM_AMPR_12_MODULE_NOT_FOUND) ||
      (b == COM_AMPR_12_MODULE_PRESENT) ||
      (b == COM_AMPR_12_MODULE_INVALID)) = true := by
  refine ⟨by simp [getModulePresence], rfl, rfl, ?_, ?_⟩
  · show ((List.range 13).map fun i => presenceCode (scan i)).get? 12 =
      some (presenceCode (scan 12))
    rw [List.get?_eq_getElem?, List.getElem?_map]
    rfl
  · rw [List.all_eq_true]
    intro b hb
    simp only [getModulePresence, List.mem_map, List.mem_range] at hb
    obtain ⟨i, -, rfl⟩ := hb
    cases h : scan i <;> simp [presenceCode, COM_AMPR_12_MODULE_NOT_FOUND,
      COM_AMPR_12_MODULE_PRESENT, COM_AMPR_12_MODULE_INVALID]

end CGCSerial
